import Mathlib

/-!
# Verification of the ewc-arcade Mini Skate physics core

A shallow embedding of the skate game's fixed-timestep physics integrator
(`src/components/mini-skate/Skater.tsx`, function `stepPhysics`), of the level
geometry registry (`src/components/mini-skate/skateConstants.ts`) and of the
star-collection handler (`MiniSkateGame.handleStarCollected`).

JavaScript numbers are modelled as real numbers (every float is a real; the
claims under study are about order/algebraic structure, not rounding).
`THREE.Vector3` is modelled by `Vec3`; the mutable refs of the React component
(`prevJumpRef`, `rampContactRef`, `lastTrickRef`) are modelled by the explicit
record `Env` threaded through the step.  Rendering, animation and audio calls
(`playAnimation`, `onTrickPerformed`, `console.log`) have no effect on
`SkaterState` and are omitted.
-/

namespace EwcArcade

noncomputable section

open Real

/-- Model of `THREE.MathUtils.clamp(value, min, max) = Math.max(min, Math.min(max, value))`. -/
def clampR (value lo hi : ℝ) : ℝ := max lo (min hi value)

/-- Model of `THREE.Vector3` (components only; methods are modelled as functions below). -/
structure Vec3 where
  x : ℝ
  y : ℝ
  z : ℝ


namespace Vec3

/-- Model of `Vector3.lengthSq() = x*x + y*y + z*z`. -/
def lengthSq (v : Vec3) : ℝ := v.x ^ 2 + v.y ^ 2 + v.z ^ 2

/-- Model of `Vector3.length() = sqrt(x*x + y*y + z*z)`. -/
def length (v : Vec3) : ℝ := Real.sqrt v.lengthSq

/-- Componentwise scaling, `Vector3.multiplyScalar`. -/
def smul (a : ℝ) (v : Vec3) : Vec3 := ⟨a * v.x, a * v.y, a * v.z⟩

/-- Componentwise addition. -/
def add (v w : Vec3) : Vec3 := ⟨v.x + w.x, v.y + w.y, v.z + w.z⟩

/-- Model of `Vector3.addScaledVector(w, a)`. -/
def addScaled (v w : Vec3) (a : ℝ) : Vec3 := v.add (smul a w)

/-- Model of `Vector3.setLength(l)`: rescale to length `l` (the vector is nonzero at every
call site, guarded by `length > MAX_SPEED > 0`). -/
def setLength (v : Vec3) (l : ℝ) : Vec3 := smul (l / v.length) v

def zero : Vec3 := ⟨0, 0, 0⟩

end Vec3

/-- Model of `InputState` from `useSkateControls.ts`. -/
structure InputState where
  forward : Bool
  backward : Bool
  turnLeft : Bool
  turnRight : Bool
  jump : Bool
  trick1 : Bool
  trick2 : Bool
  trick3 : Bool
  trick4 : Bool


/-- Model of `SkaterState` from `Skater.tsx`. -/
structure SkaterState where
  position : Vec3
  velocity : Vec3
  rotation : ℝ
  verticalVelocity : ℝ
  isGrounded : Bool
  isGrinding : Bool
  currentTrick : Option String
  airborneTime : ℝ


/-- The component-level mutable refs read and written by `stepPhysics` and the
frame driver: `prevJumpRef`, `rampContactRef`, `lastTrickRef`. -/
structure Env where
  prevJump : Bool
  rampContact : Bool
  lastTrick : ℤ


/- `PHYSICS` from `skateConstants.ts` (the tuned, current values). -/
namespace PHYSICS

def GRAVITY : ℝ := 15
def PUSH_ACCEL : ℝ := 0.5
def MAX_SPEED : ℝ := 0.2
def TURN_SPEED : ℝ := 1
def FRICTION : ℝ := 0.95
def BRAKE_FRICTION : ℝ := 0.85
def JUMP_FORCE : ℝ := 5
def AIR_CONTROL : ℝ := 0.3
def GRIND_SPEED : ℝ := 0.3
def RAMP_BOOST : ℝ := 1.3

end PHYSICS

/-- Value of `PARK_SIZE.boundSize` from `skateConstants.ts`. -/
def boundSize : ℝ := 19

/-- Modelled from the spec: the integrator reads `PHYSICS.MAX_VERTICAL_VEL`
(the clamp bound for `verticalVelocity`) and `PHYSICS.RAMP_LAUNCH` (the
ramp-assisted launch force), but the definitions of these two constants are
absent from the sources (the `PHYSICS` object in `skateConstants.ts` does not
contain them; only the call sites in `Skater.tsx` remain).  They are therefore
carried as explicit parameters of the model. -/
structure MissingConsts where
  maxVerticalVel : ℝ
  rampLaunch : ℝ

/-- Modelled from the spec: the constraints the spec places on the two missing
constants — `MAX_VERTICAL_VEL` is a (positive) clamp bound for the signed
vertical velocity, and the ramp-boosted launch constant is "distinct from and
greater than the flat-ground launch constant" `JUMP_FORCE`. -/
def specConsts (c : MissingConsts) : Prop :=
  0 < c.maxVerticalVel ∧ PHYSICS.JUMP_FORCE < c.rampLaunch

/-- Ramp approach direction (`RampData.direction`). -/
inductive RampDir where
  | north
  | south
  | east
  | west
  deriving DecidableEq

/-- Model of `RampData` from `skateConstants.ts`. -/
structure RampData where
  id : String
  position : Vec3
  size : Vec3
  maxHeight : ℝ
  direction : RampDir
  slopeAngle : ℝ


/-- Table `RAMP_DATA` from `skateConstants.ts`. -/
def RAMP_DATA : List RampData :=
  [ ⟨"hp1", ⟨8, 0, -14⟩, ⟨4, 2, 2⟩, 2, .north, 60⟩,
    ⟨"hp2", ⟨14, 0, -6⟩, ⟨2, 2, 4⟩, 2, .east, 60⟩,
    ⟨"hp3", ⟨-10, 0, -14⟩, ⟨4, 2, 2⟩, 2, .south, 60⟩,
    ⟨"hp4", ⟨-16, 0, -8⟩, ⟨2, 2, 4⟩, 2, .west, 60⟩,
    ⟨"bowl1", ⟨14, 0, -14⟩, ⟨2, 1.5, 2⟩, 1.5, .south, 45⟩,
    ⟨"bowl2", ⟨12, 0, -16⟩, ⟨2, 1.5, 0.5⟩, 1.5, .north, 45⟩,
    ⟨"bowl3", ⟨16, 0, -12⟩, ⟨0.5, 1.5, 2⟩, 1.5, .west, 45⟩ ]

/-- Model of `ObstacleData` from `skateConstants.ts` (the zone tag plays no role in the
integrator and is kept as a string). -/
structure ObstacleData where
  id : String
  position : Vec3
  size : Vec3
  grindable : Bool
  zone : String


/-- Table `OBSTACLE_DATA` from `skateConstants.ts`. -/
def OBSTACLE_DATA : List ObstacleData :=
  [ ⟨"o1", ⟨-10, 0, 16⟩, ⟨1, 0.5, 1⟩, true, "BEGINNER"⟩,
    ⟨"o2", ⟨-8, 0, 16⟩, ⟨1, 0.5, 1⟩, true, "BEGINNER"⟩,
    ⟨"o3", ⟨-12, 0, 8⟩, ⟨1, 0.5, 1⟩, true, "BEGINNER"⟩,
    ⟨"o4", ⟨10, 0, 4⟩, ⟨2, 0.5, 1⟩, true, "STREET"⟩,
    ⟨"o5", ⟨14, 0, 4⟩, ⟨1, 0.5, 1⟩, true, "STREET"⟩,
    ⟨"o6", ⟨8, 0, 10⟩, ⟨2, 0.6, 2⟩, false, "STREET"⟩,
    ⟨"o7", ⟨16, 0, 16⟩, ⟨2, 0.6, 2⟩, false, "STREET"⟩,
    ⟨"o8", ⟨10, 0, -16⟩, ⟨1, 0.5, 1⟩, true, "BOWL"⟩,
    ⟨"o9", ⟨-12, 0, -12⟩, ⟨2, 0.5, 1⟩, true, "ADVANCED"⟩,
    ⟨"o10", ⟨-8, 0, -16⟩, ⟨1, 0.5, 1⟩, true, "ADVANCED"⟩,
    ⟨"o11", ⟨-16, 0, -16⟩, ⟨2, 0.6, 2⟩, false, "ADVANCED"⟩,
    ⟨"o12", ⟨0, 0, 0⟩, ⟨1, 0.5, 1⟩, true, "HUB"⟩,
    ⟨"o13", ⟨-3, 0, 3⟩, ⟨2, 0.5, 1⟩, true, "HUB"⟩,
    ⟨"o14", ⟨3, 0, -3⟩, ⟨2, 0.5, 1⟩, true, "HUB"⟩ ]

/-- An entry of `TRICKS` from `skateConstants.ts` (key/animation omitted; only
`id` and `name` reach the physics state). -/
structure Trick where
  id : String
  name : String


/-- Table `TRICKS` from `skateConstants.ts`. -/
def TRICKS : List Trick :=
  [⟨"kickflip", "Kickflip"⟩, ⟨"heelflip", "Heelflip"⟩, ⟨"grab", "Grab"⟩,
    ⟨"flip360", "360 Flip"⟩]

/-- Constant `FIXED_DT = 1 / 60` from `Skater.tsx`. -/
def FIXED_DT : ℝ := 1 / 60

/-- Lines 197-207 of `Skater.tsx`: gravity while airborne, zeroing while
grounded, then the clamp to `±MAX_VERTICAL_VEL`. -/
def gravityClamp (c : MissingConsts) (dt : ℝ) (s : SkaterState) : SkaterState :=
  let vv := if s.isGrounded then 0 else s.verticalVelocity - PHYSICS.GRAVITY * dt
  { s with verticalVelocity := clampR vv (-c.maxVerticalVel) c.maxVerticalVel }

/-- Lines 209-237 of `Skater.tsx`: the grounded-input branch — forward push,
brake, turning, the edge-detected jump launch, and rolling friction. -/
def groundedControls (c : MissingConsts) (dt : ℝ) (inp : InputState) (e : Env)
    (s : SkaterState) : SkaterState :=
  let vel1 := if inp.forward then
      s.velocity.addScaled ⟨Real.sin s.rotation, 0, Real.cos s.rotation⟩
        (PHYSICS.PUSH_ACCEL * dt)
    else s.velocity
  let vel2 := if inp.backward then Vec3.smul PHYSICS.BRAKE_FRICTION vel1 else vel1
  let rot1 := if inp.turnLeft then s.rotation + PHYSICS.TURN_SPEED * dt else s.rotation
  let rot2 := if inp.turnRight then rot1 - PHYSICS.TURN_SPEED * dt else rot1
  let jumpPressed := inp.jump && !e.prevJump
  let vv := if jumpPressed then
      (if e.rampContact then c.rampLaunch else PHYSICS.JUMP_FORCE)
    else s.verticalVelocity
  let grounded := if jumpPressed then false else s.isGrounded
  let vel3 := if !inp.backward then Vec3.smul PHYSICS.FRICTION vel2 else vel2
  { s with velocity := vel3, rotation := rot2, verticalVelocity := vv,
           isGrounded := grounded }

/-- Lines 238-254 of `Skater.tsx`: the airborne-input branch — air-control
turning and trick registration keyed on the lowest-indexed pressed trick
button, gated on differing from `lastTrickRef`. -/
def airControls (dt : ℝ) (inp : InputState) (e : Env) (s : SkaterState) :
    SkaterState × ℤ :=
  let rot1 := if inp.turnLeft then
      s.rotation + PHYSICS.TURN_SPEED * PHYSICS.AIR_CONTROL * dt else s.rotation
  let rot2 := if inp.turnRight then
      rot1 - PHYSICS.TURN_SPEED * PHYSICS.AIR_CONTROL * dt else rot1
  let trickIndex : ℤ :=
    if inp.trick1 then 0 else if inp.trick2 then 1 else if inp.trick3 then 2
    else if inp.trick4 then 3 else -1
  if 0 ≤ trickIndex ∧ trickIndex < 4 ∧ trickIndex ≠ e.lastTrick then
    ({ s with rotation := rot2,
              currentTrick := some ((TRICKS.getD trickIndex.toNat ⟨"", ""⟩).name) },
      trickIndex)
  else
    ({ s with rotation := rot2 }, e.lastTrick)

/-- The `if (state.isGrounded) { ... } else { ... }` dispatch over the two
input branches (line 209 of `Skater.tsx`), together with the resulting value of
`lastTrickRef`. -/
def applyControls (c : MissingConsts) (dt : ℝ) (inp : InputState) (e : Env)
    (s : SkaterState) : SkaterState × ℤ :=
  if s.isGrounded then (groundedControls c dt inp e s, e.lastTrick)
  else airControls dt inp e s

/-- Lines 256-261 of `Skater.tsx`: cap the speed at `MAX_SPEED`, then zero
velocities whose squared length falls below `0.0004`. -/
def speedClamp (s : SkaterState) : SkaterState :=
  let v1 := if s.velocity.length > PHYSICS.MAX_SPEED then
      s.velocity.setLength PHYSICS.MAX_SPEED else s.velocity
  let v2 := if v1.lengthSq < 0.0004 then Vec3.zero else v1
  { s with velocity := v2 }

/-- Lines 263-264 of `Skater.tsx`: `position += velocity * dt` followed by
`position.y += verticalVelocity * dt`. -/
def integrate (dt : ℝ) (s : SkaterState) : SkaterState :=
  let p1 := s.position.addScaled s.velocity dt
  { s with position := { p1 with y := p1.y + s.verticalVelocity * dt } }

/-- The ramp footprint test of lines 274-277 of `Skater.tsx`. -/
def inRampFootprint (r : RampData) (px pz : ℝ) : Prop :=
  r.position.x - r.size.x / 2 ≤ px ∧ px ≤ r.position.x + r.size.x / 2 ∧
  r.position.z - r.size.z / 2 ≤ pz ∧ pz ≤ r.position.z + r.size.z / 2

instance (r : RampData) (px pz : ℝ) : Decidable (inRampFootprint r px pz) := by
  unfold inRampFootprint; infer_instance

/-- The normalized penetration progress of lines 278-292 of `Skater.tsx`. -/
def rampProgress (r : RampData) (px pz : ℝ) : ℝ :=
  match r.direction with
  | .north => (pz - (r.position.z - r.size.z / 2)) / r.size.z
  | .south => 1 - (pz - (r.position.z - r.size.z / 2)) / r.size.z
  | .east => (px - (r.position.x - r.size.x / 2)) / r.size.x
  | .west => 1 - (px - (r.position.x - r.size.x / 2)) / r.size.x

/-- The quarter-sine ramp surface height of line 294 of `Skater.tsx`:
`Math.sin(progress * Math.PI / 2) * ramp.maxHeight`. -/
def rampHeight (r : RampData) (px pz : ℝ) : ℝ :=
  Real.sin (rampProgress r px pz * Real.pi / 2) * r.maxHeight

/-- One iteration of the ramp collision loop, lines 268-303 of `Skater.tsx`.
The accumulator carries the state together with the `onRamp` flag. -/
def rampStep (acc : SkaterState × Bool) (r : RampData) : SkaterState × Bool :=
  let s := acc.1
  if inRampFootprint r s.position.x s.position.z then
    let h := rampHeight r s.position.x s.position.z
    if s.position.y ≤ h + 0.05 ∧ s.verticalVelocity ≤ 0.2 then
      ({ s with position := { s.position with y := h }, verticalVelocity := 0,
                isGrounded := true }, true)
    else acc
  else acc

/-- The padded obstacle footprint test of lines 313-316 of `Skater.tsx`
(half-extents expanded by `0.3`). -/
def inObstaclePad (ob : ObstacleData) (px pz : ℝ) : Prop :=
  ob.position.x - ob.size.x / 2 - 0.3 ≤ px ∧ px ≤ ob.position.x + ob.size.x / 2 + 0.3 ∧
  ob.position.z - ob.size.z / 2 - 0.3 ≤ pz ∧ pz ≤ ob.position.z + ob.size.z / 2 + 0.3

instance (ob : ObstacleData) (px pz : ℝ) : Decidable (inObstaclePad ob px pz) := by
  unfold inObstaclePad; infer_instance

/-- One iteration of the obstacle collision loop, lines 307-336 of
`Skater.tsx`: top-surface snap inside the band `[sy - 0.2, sy + 0.1]`,
otherwise a side push-out along the axis with the larger center offset, with
that axis's velocity component multiplied by `-0.3`.  The accumulator carries
the state together with the `onSurface` flag. -/
def obstacleStep (acc : SkaterState × Bool) (ob : ObstacleData) :
    SkaterState × Bool :=
  let s := acc.1
  let sy := ob.size.y
  if inObstaclePad ob s.position.x s.position.z then
    if s.position.y ≤ sy + 0.1 ∧ s.position.y ≥ sy - 0.2 then
      ({ s with position := { s.position with y := sy }, verticalVelocity := 0,
                isGrounded := true, currentTrick := none }, true)
    else if s.position.y < sy then
      let dx := s.position.x - ob.position.x
      let dz := s.position.z - ob.position.z
      if |dx| > |dz| then
        ({ s with
            position := { s.position with
              x := ob.position.x + Real.sign dx * (ob.size.x / 2 + 0.3) },
            velocity := { s.velocity with x := s.velocity.x * (-0.3) } }, acc.2)
      else
        ({ s with
            position := { s.position with
              z := ob.position.z + Real.sign dz * (ob.size.z / 2 + 0.3) },
            velocity := { s.velocity with z := s.velocity.z * (-0.3) } }, acc.2)
    else acc
  else acc

/-- Lines 338-344 of `Skater.tsx`: the floor fallback — if neither a ramp nor
an obstacle top claimed contact and the actor is at or below ground level while
descending, snap to the ground. -/
def floorSnap (onSurface : Bool) (s : SkaterState) : SkaterState :=
  if !onSurface ∧ s.position.y ≤ 0 ∧ s.verticalVelocity < 0 then
    { s with position := { s.position with y := 0 }, verticalVelocity := 0,
             isGrounded := true }
  else s

/-- Lines 351-353 of `Skater.tsx`: clamp the horizontal position into the
park's rectangular bound. -/
def boundClamp (s : SkaterState) : SkaterState :=
  { s with position := { s.position with
      x := clampR s.position.x (-boundSize) boundSize,
      z := clampR s.position.z (-boundSize) boundSize } }

/-- The state reached just before collision resolution: gravity and clamp,
input handling, speed clamp and position integration (lines 197-264 of
`Skater.tsx`). -/
def preCollide (c : MissingConsts) (dt : ℝ) (inp : InputState) (e : Env)
    (s : SkaterState) : SkaterState :=
  integrate dt (speedClamp (applyControls c dt inp e (gravityClamp c dt s)).1)

/-- Lines 346-349 of `Skater.tsx`: on a landing transition (grounded now, not
grounded at tick start) clear the active trick.  (The companion
`lastTrickRef = -1` reset is handled in `stepPhysics`.) -/
def landingReset (wasGrounded : Bool) (s : SkaterState) : SkaterState :=
  if s.isGrounded && !wasGrounded then { s with currentTrick := none } else s

/-- Lines 372-376 of `Skater.tsx`: airborne-time bookkeeping. -/
def airborneTick (dt : ℝ) (s : SkaterState) : SkaterState :=
  { s with airborneTime := if s.isGrounded then 0 else s.airborneTime + dt }

/-- Function `stepPhysics(dt)` of `Skater.tsx` (lines 191-379) as one pure transition on
`SkaterState × Env`: gravity/clamp, input branches, speed clamp, integration
(together `preCollide`), ramp loop, obstacle loop, floor fallback, landing
reset, bound clamp, airborne time, and the recording of
`rampContactRef := onRamp`.  (`prevJumpRef` is updated by the frame driver,
not inside the step — see `frame`.) -/
def stepPhysics (c : MissingConsts) (dt : ℝ) (inp : InputState)
    (s : SkaterState) (e : Env) : SkaterState × Env :=
  let wasGrounded := s.isGrounded
  let lt1 := (applyControls c dt inp e (gravityClamp c dt s)).2
  let rp := RAMP_DATA.foldl rampStep (preCollide c dt inp e s, false)
  let op := OBSTACLE_DATA.foldl obstacleStep (rp.1, rp.2)
  let s7 := floorSnap op.2 op.1
  let s10 := airborneTick dt (boundClamp (landingReset wasGrounded s7))
  let lt2 := if s7.isGrounded && !wasGrounded then -1 else lt1
  (s10, { e with rampContact := rp.2, lastTrick := lt2 })

/-- The accumulator drain loop of the frame driver (lines 390-394 of
`Skater.tsx`): `k` consecutive `stepPhysics` calls with no frame-level
bookkeeping in between — in particular `prevJumpRef` is NOT updated between
the ticks of one frame.  The drain count `k` is a parameter: it is however
many whole `FIXED_DT` steps the accumulator holds that frame (with
`MAX_ACCUM = 0.1` and `FIXED_DT = 1/60` that is between 0 and 6). -/
def drainTicks (c : MissingConsts) (dt : ℝ) (inp : InputState) :
    ℕ → SkaterState × Env → SkaterState × Env
  | 0, p => p
  | k + 1, p => drainTicks c dt inp k (stepPhysics c dt inp p.1 p.2)

/-- One `useFrame` callback of `Skater.tsx`: drain `k` fixed ticks
(lines 390-394), then the frame driver's
`prevJumpRef.current = inputRef.current.jump` (line 406). -/
def frame (c : MissingConsts) (dt : ℝ) (inp : InputState) (k : ℕ)
    (p : SkaterState × Env) : SkaterState × Env :=
  let q := drainTicks c dt inp k p
  (q.1, { q.2 with prevJump := inp.jump })

/-- The condition under which the jump-launch branch of lines 226-233 of
`Skater.tsx` fires on a tick: the actor is grounded and the jump flag shows a
rising edge against `prevJumpRef`. -/
def launchFired (inp : InputState) (s : SkaterState) (e : Env) : Bool :=
  s.isGrounded && (inp.jump && !e.prevJump)

/-- Number of ticks, among `k` consecutive ticks drained within one frame
(constant input, `prevJumpRef` not updated in between), on which the
jump-launch branch fires (each firing is the in-tick grounded-to-airborne
launch transition). -/
def launchesInTicks (c : MissingConsts) (dt : ℝ) (inp : InputState) :
    ℕ → SkaterState × Env → ℕ
  | 0, _ => 0
  | k + 1, p =>
      (if launchFired inp p.1 p.2 then 1 else 0) +
        launchesInTicks c dt inp k (stepPhysics c dt inp p.1 p.2)

/-- Number of launch-branch firings across a run of frames driven with the
constant input `inp`, where frame `i` drains `ks[i]` fixed ticks and then
updates `prevJumpRef`.  The run covers `ks.sum` consecutive ticks. -/
def launchesInFrames (c : MissingConsts) (dt : ℝ) (inp : InputState) :
    List ℕ → SkaterState × Env → ℕ
  | [], _ => 0
  | k :: ks, p =>
      launchesInTicks c dt inp k p +
        launchesInFrames c dt inp ks (frame c dt inp k p)

/-- The star-collection bookkeeping touched by
`MiniSkateGame.handleStarCollected`: the session-collected list, the persisted
collected list, and the persisted total star points. -/
structure StarBook where
  sessionStars : List ℕ
  collectedStars : List ℕ
  totalStarPoints : ℕ
  deriving DecidableEq

/-- Handler `handleStarCollected(starId, points)` of `MiniSkateGame.tsx`: a no-op when
the id is already in the session list or the persisted list; otherwise appends
the id to both lists and adds the points to the persisted total. -/
def handleStarCollected (b : StarBook) (starId points : ℕ) : StarBook :=
  if starId ∈ b.sessionStars ∨ starId ∈ b.collectedStars then b
  else
    { sessionStars := b.sessionStars ++ [starId],
      collectedStars := b.collectedStars ++ [starId],
      totalStarPoints := b.totalStarPoints + points }

/-! ## Helper lemmas -/

/-- An invariant preserved by every step of a left fold holds of the result. -/
theorem foldlInvariant {α β : Type} (P : α → Prop) (f : α → β → α) :
    ∀ (l : List β) (init : α), P init →
      (∀ a b, b ∈ l → P a → P (f a b)) → P (l.foldl f init)
  | [], _, h, _ => h
  | b :: l, init, h, hf =>
      foldlInvariant P f l (f init b) (hf init b (List.Mem.head l) h)
        (fun a b' hb' ha => hf a b' (List.Mem.tail _ hb') ha)

theorem le_clampR (v lo hi : ℝ) : lo ≤ clampR v lo hi := le_max_left _ _

theorem clampR_le (v lo hi : ℝ) (h : lo ≤ hi) : clampR v lo hi ≤ hi :=
  max_le h (min_le_left _ _)

theorem abs_clampR_le (v m : ℝ) (hm : 0 ≤ m) : |clampR v (-m) m| ≤ m :=
  abs_le.mpr ⟨le_clampR _ _ _, clampR_le _ _ _ (by linarith)⟩

theorem clampR_zero (m : ℝ) (hm : 0 ≤ m) : clampR 0 (-m) m = 0 := by
  unfold clampR
  rw [min_eq_right hm, max_eq_right (neg_nonpos.mpr hm)]

/-! Stage lemmas: which fields each stage of the tick can touch, and the two
invariants threaded through the collision loops — grounded-ness is never
revoked, and a grounded state always carries zero vertical velocity. -/

theorem rampStep_velocity (acc : SkaterState × Bool) (r : RampData) :
    (rampStep acc r).1.velocity = acc.1.velocity := by
  simp only [rampStep]; split_ifs <;> rfl

theorem rampStep_grounded (acc : SkaterState × Bool) (r : RampData)
    (h : acc.1.isGrounded = true) : (rampStep acc r).1.isGrounded = true := by
  simp only [rampStep]; split_ifs <;> simp [h]

theorem rampStep_gvv (acc : SkaterState × Bool) (r : RampData)
    (h : acc.1.isGrounded = true → acc.1.verticalVelocity = 0) :
    (rampStep acc r).1.isGrounded = true →
      (rampStep acc r).1.verticalVelocity = 0 := by
  simp only [rampStep]; split_ifs <;> simp_all

theorem rampStep_of_notin (acc : SkaterState × Bool) (r : RampData)
    (h : ¬ inRampFootprint r acc.1.position.x acc.1.position.z) :
    rampStep acc r = acc := by
  unfold rampStep; rw [if_neg h]

theorem obstacleStep_grounded (acc : SkaterState × Bool) (ob : ObstacleData)
    (h : acc.1.isGrounded = true) : (obstacleStep acc ob).1.isGrounded = true := by
  simp only [obstacleStep]; split_ifs <;> simp [h]

theorem obstacleStep_gvv (acc : SkaterState × Bool) (ob : ObstacleData)
    (h : acc.1.isGrounded = true → acc.1.verticalVelocity = 0) :
    (obstacleStep acc ob).1.isGrounded = true →
      (obstacleStep acc ob).1.verticalVelocity = 0 := by
  simp only [obstacleStep]; split_ifs <;> simp_all

theorem obstacleStep_lengthSq (acc : SkaterState × Bool) (ob : ObstacleData) :
    (obstacleStep acc ob).1.velocity.lengthSq ≤ acc.1.velocity.lengthSq := by
  simp only [obstacleStep]; split_ifs <;>
    simp only [Vec3.lengthSq] <;>
    nlinarith [sq_nonneg acc.1.velocity.x, sq_nonneg acc.1.velocity.z]

theorem obstacleStep_of_notin (acc : SkaterState × Bool) (ob : ObstacleData)
    (h : ¬ inObstaclePad ob acc.1.position.x acc.1.position.z) :
    obstacleStep acc ob = acc := by
  unfold obstacleStep; rw [if_neg h]

theorem floorSnap_velocity (b : Bool) (s : SkaterState) :
    (floorSnap b s).velocity = s.velocity := by
  simp only [floorSnap]; split_ifs <;> rfl

theorem floorSnap_grounded (b : Bool) (s : SkaterState)
    (h : s.isGrounded = true) : (floorSnap b s).isGrounded = true := by
  simp only [floorSnap]; split_ifs <;> simp [h]

theorem floorSnap_gvv (b : Bool) (s : SkaterState)
    (h : s.isGrounded = true → s.verticalVelocity = 0) :
    (floorSnap b s).isGrounded = true → (floorSnap b s).verticalVelocity = 0 := by
  simp only [floorSnap]; split_ifs <;> simp_all

theorem floorSnap_of_nonneg (b : Bool) (s : SkaterState)
    (h : 0 ≤ s.verticalVelocity) : floorSnap b s = s := by
  unfold floorSnap
  exact if_neg fun hcon => absurd hcon.2.2 (not_lt.mpr h)

theorem landingReset_isGrounded (w : Bool) (s : SkaterState) :
    (landingReset w s).isGrounded = s.isGrounded := by
  simp only [landingReset]; split_ifs <;> rfl

theorem landingReset_verticalVelocity (w : Bool) (s : SkaterState) :
    (landingReset w s).verticalVelocity = s.verticalVelocity := by
  simp only [landingReset]; split_ifs <;> rfl

theorem landingReset_velocity (w : Bool) (s : SkaterState) :
    (landingReset w s).velocity = s.velocity := by
  simp only [landingReset]; split_ifs <;> rfl

theorem landingReset_position (w : Bool) (s : SkaterState) :
    (landingReset w s).position = s.position := by
  simp only [landingReset]; split_ifs <;> rfl

theorem airControls_isGrounded (dt : ℝ) (inp : InputState) (e : Env)
    (s : SkaterState) : (airControls dt inp e s).1.isGrounded = s.isGrounded := by
  simp only [airControls]; split_ifs <;> rfl

/-- When grounded, the gravity stage zeroes the vertical velocity (the clamp
fixes `0` as long as the bound is nonnegative). -/
theorem gravityClamp_gvv (c : MissingConsts) (dt : ℝ) (s : SkaterState)
    (h0 : (0 : ℝ) ≤ c.maxVerticalVel) :
    (gravityClamp c dt s).isGrounded = true →
      (gravityClamp c dt s).verticalVelocity = 0 := by
  intro h
  have hg : s.isGrounded = true := h
  simp [gravityClamp, hg, clampR_zero _ h0]

/-- The input stage never leaves a grounded state carrying a nonzero vertical
velocity: a grounded no-jump tick keeps the zero set by the gravity stage, and
a launch flips the grounded flag off. -/
theorem applyControls_gvv (c : MissingConsts) (dt : ℝ) (inp : InputState)
    (e : Env) (s1 : SkaterState)
    (hvv : s1.isGrounded = true → s1.verticalVelocity = 0) :
    (applyControls c dt inp e s1).1.isGrounded = true →
      (applyControls c dt inp e s1).1.verticalVelocity = 0 := by
  by_cases hg : s1.isGrounded
  · by_cases hjp : (inp.jump && !e.prevJump) = true
    · simp [applyControls, groundedControls, hg, hjp]
    · simp [applyControls, groundedControls, hg, hjp, hvv hg]
  · intro hout
    exfalso
    simp only [Bool.not_eq_true] at hg
    rw [show (applyControls c dt inp e s1).1.isGrounded = s1.isGrounded by
      simp [applyControls, hg, airControls_isGrounded], hg] at hout
    exact absurd hout (by simp)

/-- The post-gravity input stage never leaves a grounded state carrying a
nonzero vertical velocity. -/
theorem controls_gvv (c : MissingConsts) (dt : ℝ) (inp : InputState) (e : Env)
    (s : SkaterState) (hc : specConsts c) :
    (applyControls c dt inp e (gravityClamp c dt s)).1.isGrounded = true →
      (applyControls c dt inp e (gravityClamp c dt s)).1.verticalVelocity = 0 :=
  applyControls_gvv c dt inp e _ (gravityClamp_gvv c dt s (le_of_lt hc.1))

/-- C3: whenever a tick's output state is grounded, its vertical velocity is
zero at the end of the tick.  (This holds with no exception: in the same-tick
jump-launch case the grounded flag is false at the end of the tick unless a
later collision stage re-grounds the actor, and every re-grounding stage also
zeroes the vertical velocity.) -/
theorem grounded_implies_zero_vertical (c : MissingConsts) (dt : ℝ)
    (inp : InputState) (s : SkaterState) (e : Env) (hc : specConsts c)
    (hg : (stepPhysics c dt inp s e).1.isGrounded = true) :
    (stepPhysics c dt inp s e).1.verticalVelocity = 0 := by
  have h4 : (preCollide c dt inp e s).isGrounded = true →
      (preCollide c dt inp e s).verticalVelocity = 0 :=
    controls_gvv c dt inp e s hc
  have h5 := foldlInvariant
    (fun p : SkaterState × Bool =>
      p.1.isGrounded = true → p.1.verticalVelocity = 0)
    rampStep RAMP_DATA (preCollide c dt inp e s, false) h4
    (fun a b _ ha => rampStep_gvv a b ha)
  have h6 := foldlInvariant
    (fun p : SkaterState × Bool =>
      p.1.isGrounded = true → p.1.verticalVelocity = 0)
    obstacleStep OBSTACLE_DATA
    ((RAMP_DATA.foldl rampStep (preCollide c dt inp e s, false)).1,
      (RAMP_DATA.foldl rampStep (preCollide c dt inp e s, false)).2) h5
    (fun a b _ ha => obstacleStep_gvv a b ha)
  have h7 := floorSnap_gvv
    (OBSTACLE_DATA.foldl obstacleStep
      ((RAMP_DATA.foldl rampStep (preCollide c dt inp e s, false)).1,
        (RAMP_DATA.foldl rampStep (preCollide c dt inp e s, false)).2)).2
    (OBSTACLE_DATA.foldl obstacleStep
      ((RAMP_DATA.foldl rampStep (preCollide c dt inp e s, false)).1,
        (RAMP_DATA.foldl rampStep (preCollide c dt inp e s, false)).2)).1 h6
  simp only [stepPhysics, airborneTick, boundClamp] at hg ⊢
  rw [landingReset_verticalVelocity]
  rw [landingReset_isGrounded] at hg
  exact h7 hg

/-! ## Theorems for the claims -/

/-- Witness for C3: a full tick from a grounded resting state away from all
geometry ends grounded, and the theorem yields zero vertical velocity there. -/
theorem grounded_implies_zero_vertical_witness :
    (stepPhysics ⟨20, 6.5⟩ FIXED_DT
      ⟨false, false, false, false, false, false, false, false, false⟩
      ⟨⟨-18, 0, 18⟩, ⟨0, 0, 0⟩, 0, 0, true, false, none, 0⟩
      ⟨false, false, -1⟩).1.verticalVelocity = 0 :=
  grounded_implies_zero_vertical ⟨20, 6.5⟩ FIXED_DT _ _ _
    (by constructor <;> norm_num [PHYSICS.JUMP_FORCE])
    (by norm_num [stepPhysics, preCollide, applyControls, groundedControls,
      airControls, gravityClamp, speedClamp, integrate, rampStep, obstacleStep,
      floorSnap, boundClamp, landingReset, airborneTick, clampR, Vec3.lengthSq,
      Vec3.length, Vec3.smul, Vec3.add, Vec3.addScaled, Vec3.zero,
      Vec3.setLength, RAMP_DATA, OBSTACLE_DATA, inRampFootprint, inObstaclePad,
      rampProgress, rampHeight, boundSize, FIXED_DT, Real.sqrt_zero, min_def,
      max_def, PHYSICS.GRAVITY, PHYSICS.PUSH_ACCEL, PHYSICS.MAX_SPEED,
      PHYSICS.TURN_SPEED, PHYSICS.FRICTION, PHYSICS.BRAKE_FRICTION,
      PHYSICS.JUMP_FORCE, PHYSICS.AIR_CONTROL])

theorem stepPhysics_prevJump (c : MissingConsts) (dt : ℝ) (inp : InputState)
    (s : SkaterState) (e : Env) :
    (stepPhysics c dt inp s e).2.prevJump = e.prevJump := rfl

theorem frame_prevJump (c : MissingConsts) (dt : ℝ) (inp : InputState) (k : ℕ)
    (p : SkaterState × Env) : (frame c dt inp k p).2.prevJump = inp.jump := rfl

/-- Within one frame, once `prevJumpRef` holds `true` no tick can fire the
launch branch (the flag is not rewritten between the ticks of a frame). -/
theorem launchesInTicks_held (c : MissingConsts) (dt : ℝ) (inp : InputState) :
    ∀ (k : ℕ) (p : SkaterState × Env), p.2.prevJump = true →
      launchesInTicks c dt inp k p = 0 := by
  intro k
  induction k with
  | zero => intro p _; rfl
  | succ k ih =>
      intro p hp
      have hf : launchFired inp p.1 p.2 = false := by simp [launchFired, hp]
      have hn : (stepPhysics c dt inp p.1 p.2).2.prevJump = true := by
        rw [stepPhysics_prevJump]; exact hp
      simp only [launchesInTicks, hf, Bool.false_eq_true, if_false,
        ih (stepPhysics c dt inp p.1 p.2) hn, zero_add]

/-- Across frames driven by a held jump flag, once `prevJumpRef` holds `true`
no later tick can fire the launch branch: every frame re-records `true`. -/
theorem launchesInFrames_held (c : MissingConsts) (dt : ℝ) (inp : InputState)
    (hj : inp.jump = true) :
    ∀ (ks : List ℕ) (p : SkaterState × Env), p.2.prevJump = true →
      launchesInFrames c dt inp ks p = 0 := by
  intro ks
  induction ks with
  | nil => intro p _; rfl
  | cons k ks ih =>
      intro p hp
      have hfr : (frame c dt inp k p).2.prevJump = true := by
        rw [frame_prevJump]; exact hj
      simp only [launchesInFrames, launchesInTicks_held c dt inp k p hp,
        ih (frame c dt inp k p) hfr, zero_add]

/-- Counterexample for C6 as stated.  The frame driver updates `prevJumpRef`
once per frame, after the accumulator drain loop (`Skater.tsx` lines 390-394
and 406), so every tick drained within one frame sees the same previous-jump
flag.  Start grounded on top of the registry obstacle `o1` (a `(1, 0.5, 1)`
box at `(-10, 0, 16)`) with jump held and no previous jump recorded, and let
each frame drain 2 fixed ticks (the accumulator cap `MAX_ACCUM = 0.1` allows
up to 6).  Tick 1 fires the launch (`verticalVelocity := 5`), but the lift
`5/60` leaves the actor at height `7/12`, inside `o1`'s top band
`[0.3, 0.6]`, so the same tick snaps it back to grounded; tick 2, still in
frame 1 with `prevJumpRef` still `false`, fires the launch branch again.  The
run of `(List.replicate 50 2).sum = 100` consecutive ticks with jump held
throughout therefore fires two grounded-to-airborne launch transitions, not
exactly one. -/
theorem jump_edge_hold_counterexample :
    (List.replicate 50 2).sum = 100 ∧
    (⟨"o1", ⟨-10, 0, 16⟩, ⟨1, 0.5, 1⟩, true, "BEGINNER"⟩ : ObstacleData) ∈
        OBSTACLE_DATA ∧
    launchesInFrames ⟨20, 6.5⟩ FIXED_DT
      ⟨false, false, false, false, true, false, false, false, false⟩
      (List.replicate 50 2)
      (⟨⟨-10, 0.5, 16⟩, ⟨0, 0, 0⟩, 0, 0, true, false, none, 0⟩,
        ⟨false, false, -1⟩) = 2 := by
  refine ⟨by simp, by simp [OBSTACLE_DATA], ?_⟩
  have hstep : (stepPhysics ⟨20, 6.5⟩ FIXED_DT
      ⟨false, false, false, false, true, false, false, false, false⟩
      ⟨⟨-10, 0.5, 16⟩, ⟨0, 0, 0⟩, 0, 0, true, false, none, 0⟩
      ⟨false, false, -1⟩).1.isGrounded = true := by
    norm_num [stepPhysics, preCollide, applyControls, groundedControls,
      airControls, gravityClamp, speedClamp, integrate, rampStep, obstacleStep,
      floorSnap, boundClamp, landingReset, airborneTick, clampR, Vec3.lengthSq,
      Vec3.length, Vec3.smul, Vec3.add, Vec3.addScaled, Vec3.zero,
      Vec3.setLength, RAMP_DATA, OBSTACLE_DATA, inRampFootprint, inObstaclePad,
      rampProgress, rampHeight, boundSize, FIXED_DT, Real.sqrt_zero,
      Real.sin_zero, Real.cos_zero, min_def, max_def, PHYSICS.GRAVITY,
      PHYSICS.PUSH_ACCEL, PHYSICS.MAX_SPEED, PHYSICS.TURN_SPEED,
      PHYSICS.FRICTION, PHYSICS.BRAKE_FRICTION, PHYSICS.JUMP_FORCE,
      PHYSICS.AIR_CONTROL]
  have hf2 : launchFired
      ⟨false, false, false, false, true, false, false, false, false⟩
      (stepPhysics ⟨20, 6.5⟩ FIXED_DT
        ⟨false, false, false, false, true, false, false, false, false⟩
        ⟨⟨-10, 0.5, 16⟩, ⟨0, 0, 0⟩, 0, 0, true, false, none, 0⟩
        ⟨false, false, -1⟩).1
      (stepPhysics ⟨20, 6.5⟩ FIXED_DT
        ⟨false, false, false, false, true, false, false, false, false⟩
        ⟨⟨-10, 0.5, 16⟩, ⟨0, 0, 0⟩, 0, 0, true, false, none, 0⟩
        ⟨false, false, -1⟩).2 = true := by
    simp [launchFired, hstep, stepPhysics_prevJump]
  have hrest : launchesInFrames ⟨20, 6.5⟩ FIXED_DT
      ⟨false, false, false, false, true, false, false, false, false⟩
      (List.replicate 49 2)
      (frame ⟨20, 6.5⟩ FIXED_DT
        ⟨false, false, false, false, true, false, false, false, false⟩ 2
        (⟨⟨-10, 0.5, 16⟩, ⟨0, 0, 0⟩, 0, 0, true, false, none, 0⟩,
          ⟨false, false, -1⟩)) = 0 :=
    launchesInFrames_held _ _ _ rfl _ _ rfl
  rw [show List.replicate 50 2 = 2 :: List.replicate 49 2 from rfl]
  show launchesInTicks _ _ _ 2 _ + launchesInFrames _ _ _ (List.replicate 49 2) _ = 2
  rw [hrest]
  show ((if launchFired _ _ _ then 1 else 0) +
      ((if launchFired _ _ _ then 1 else 0) + 0)) + 0 = 2
  rw [show launchFired
      ⟨false, false, false, false, true, false, false, false, false⟩
      ⟨⟨-10, 0.5, 16⟩, ⟨0, 0, 0⟩, 0, 0, true, false, none, 0⟩
      ⟨false, false, -1⟩ = true from rfl, hf2]
  norm_num

/-- C6, amended: at the nominal cadence of one fixed tick per frame — so that
`prevJumpRef` is re-recorded between consecutive ticks — holding the jump flag
across 100 consecutive ticks, starting from any grounded state with no jump
recorded on the previous frame, fires the grounded-to-airborne jump-launch
branch on exactly one tick (the first), not on all 100: after the first frame
the recorded previous-jump flag stays true, so the rising-edge test fails on
every later tick.  (Without the cadence restriction this fails — see the
counterexample above.) -/
theorem jump_edge_single_launch_per_frame (c : MissingConsts) (dt : ℝ)
    (inp : InputState) (s : SkaterState) (e : Env) (hg : s.isGrounded = true)
    (hj : inp.jump = true) (hp : e.prevJump = false) :
    launchesInFrames c dt inp (List.replicate 100 1) (s, e) = 1 := by
  have h1 : launchFired inp s e = true := by simp [launchFired, hg, hj, hp]
  have hrest : launchesInFrames c dt inp (List.replicate 99 1)
      (frame c dt inp 1 (s, e)) = 0 :=
    launchesInFrames_held c dt inp hj _ _ (by rw [frame_prevJump]; exact hj)
  rw [show List.replicate 100 1 = 1 :: List.replicate 99 1 from rfl]
  show launchesInTicks c dt inp 1 (s, e) +
      launchesInFrames c dt inp (List.replicate 99 1) (frame c dt inp 1 (s, e)) = 1
  rw [hrest]
  show ((if launchFired inp s e then 1 else 0) + 0) + 0 = 1
  rw [h1]
  norm_num

/-- Witness for C6 (amended): 100 one-tick frames of held jump from a concrete
grounded resting state produce exactly one launch. -/
theorem jump_edge_single_launch_per_frame_witness :
    launchesInFrames ⟨20, 6.5⟩ FIXED_DT
      ⟨false, false, false, false, true, false, false, false, false⟩
      (List.replicate 100 1)
      (⟨⟨-18, 0, 18⟩, ⟨0, 0, 0⟩, 0, 0, true, false, none, 0⟩,
        ⟨false, false, -1⟩) = 1 :=
  jump_edge_single_launch_per_frame ⟨20, 6.5⟩ FIXED_DT _ _ _ rfl rfl rfl

/-- The speed-clamp stage leaves the squared speed at or below
`MAX_SPEED ^ 2`: an over-speed velocity is rescaled to length exactly
`MAX_SPEED`, a sub-epsilon one is zeroed, anything else was already within the
cap. -/
theorem speedClamp_lengthSq_le (s : SkaterState) :
    (speedClamp s).velocity.lengthSq ≤ PHYSICS.MAX_SPEED ^ 2 := by
  have hls : (0 : ℝ) ≤ s.velocity.lengthSq := by
    simp only [Vec3.lengthSq]; positivity
  have hM : (0 : ℝ) < PHYSICS.MAX_SPEED := by norm_num [PHYSICS.MAX_SPEED]
  simp only [speedClamp]
  split_ifs with h1 h2 h3
  · simp [Vec3.zero, Vec3.lengthSq]
    positivity
  · -- over-speed: the rescaled vector has squared length exactly MAX_SPEED ^ 2
    have hpos : 0 < s.velocity.lengthSq := by
      have : (0 : ℝ) < s.velocity.length := lt_trans hM h1
      simpa [Vec3.length, Real.sqrt_pos] using this
    have hsq : Real.sqrt s.velocity.lengthSq ^ 2 = s.velocity.lengthSq :=
      Real.sq_sqrt hls
    refine le_of_eq ?_
    have hx : (s.velocity.setLength PHYSICS.MAX_SPEED).lengthSq =
        (PHYSICS.MAX_SPEED / s.velocity.length) ^ 2 * s.velocity.lengthSq := by
      simp only [Vec3.setLength, Vec3.smul, Vec3.lengthSq]
      ring
    rw [hx, div_pow]
    simp only [Vec3.length]
    rw [Real.sq_sqrt hls, div_mul_cancel₀ _ (ne_of_gt hpos)]
  · simp [Vec3.zero, Vec3.lengthSq]
    positivity
  · -- already within the cap
    have hle : Real.sqrt s.velocity.lengthSq ≤ PHYSICS.MAX_SPEED := by
      simpa [Vec3.length] using not_lt.mp h1
    calc s.velocity.lengthSq = Real.sqrt s.velocity.lengthSq ^ 2 :=
          (Real.sq_sqrt hls).symm
      _ ≤ PHYSICS.MAX_SPEED ^ 2 :=
          pow_le_pow_left₀ (Real.sqrt_nonneg _) hle 2

/-- C5: first conjunct — at the end of every tick the horizontal velocity
magnitude is at most `MAX_SPEED`, for every starting state (hence regardless of
how many forward-acceleration ticks preceded): the clamp stage caps the speed
and the only later stage touching velocity, the obstacle side bounce, shrinks
it.  Second conjunct — the clamp stage maps any velocity whose squared length
falls below the epsilon `0.0004` (magnitude below `0.02`) to exactly the zero
vector. -/
theorem speed_clamped :
    (∀ (c : MissingConsts) (dt : ℝ) (inp : InputState) (s : SkaterState)
        (e : Env),
        Real.sqrt ((stepPhysics c dt inp s e).1.velocity.x ^ 2 +
            (stepPhysics c dt inp s e).1.velocity.z ^ 2) ≤ PHYSICS.MAX_SPEED) ∧
    (∀ s : SkaterState, s.velocity.lengthSq < 0.0004 →
        (speedClamp s).velocity = Vec3.zero) := by
  constructor
  · intro c dt inp s e
    have h4 : (preCollide c dt inp e s).velocity.lengthSq ≤
        PHYSICS.MAX_SPEED ^ 2 := speedClamp_lengthSq_le _
    have h5 := foldlInvariant
      (fun p : SkaterState × Bool =>
        p.1.velocity.lengthSq ≤ PHYSICS.MAX_SPEED ^ 2)
      rampStep RAMP_DATA (preCollide c dt inp e s, false) h4
      (fun a b _ ha => by simp only [rampStep_velocity]; exact ha)
    have h6 := foldlInvariant
      (fun p : SkaterState × Bool =>
        p.1.velocity.lengthSq ≤ PHYSICS.MAX_SPEED ^ 2)
      obstacleStep OBSTACLE_DATA
      ((RAMP_DATA.foldl rampStep (preCollide c dt inp e s, false)).1,
        (RAMP_DATA.foldl rampStep (preCollide c dt inp e s, false)).2) h5
      (fun a b _ ha => le_trans (obstacleStep_lengthSq a b) ha)
    have hfin : (stepPhysics c dt inp s e).1.velocity =
        (OBSTACLE_DATA.foldl obstacleStep
          ((RAMP_DATA.foldl rampStep (preCollide c dt inp e s, false)).1,
            (RAMP_DATA.foldl rampStep
              (preCollide c dt inp e s, false)).2)).1.velocity := by
      show (landingReset s.isGrounded (floorSnap _ _)).velocity = _
      rw [landingReset_velocity, floorSnap_velocity]
    have hhor : (stepPhysics c dt inp s e).1.velocity.x ^ 2 +
        (stepPhysics c dt inp s e).1.velocity.z ^ 2 ≤ PHYSICS.MAX_SPEED ^ 2 := by
      rw [hfin]
      simp only [Vec3.lengthSq] at h6
      nlinarith [sq_nonneg (OBSTACLE_DATA.foldl obstacleStep
        ((RAMP_DATA.foldl rampStep (preCollide c dt inp e s, false)).1,
          (RAMP_DATA.foldl rampStep
            (preCollide c dt inp e s, false)).2)).1.velocity.y]
    calc Real.sqrt ((stepPhysics c dt inp s e).1.velocity.x ^ 2 +
          (stepPhysics c dt inp s e).1.velocity.z ^ 2) ≤
          Real.sqrt (PHYSICS.MAX_SPEED ^ 2) := Real.sqrt_le_sqrt hhor
      _ = PHYSICS.MAX_SPEED := Real.sqrt_sq (le_of_lt (by
            norm_num [PHYSICS.MAX_SPEED]))
  · intro s h
    have hs : Real.sqrt s.velocity.lengthSq ≤ Real.sqrt 0.0004 :=
      Real.sqrt_le_sqrt (le_of_lt h)
    have h2 : Real.sqrt (0.0004 : ℝ) = 0.02 := by
      rw [show (0.0004 : ℝ) = 0.02 ^ 2 by norm_num]
      exact Real.sqrt_sq (by norm_num)
    have hnot : ¬ s.velocity.length > PHYSICS.MAX_SPEED := by
      simp only [Vec3.length, not_lt]
      calc Real.sqrt s.velocity.lengthSq ≤ 0.02 := h2 ▸ hs
        _ ≤ PHYSICS.MAX_SPEED := by norm_num [PHYSICS.MAX_SPEED]
    simp only [speedClamp, if_neg hnot, if_pos h]

/-- Witness for C5: the bound instantiated on a concrete over-speed tick, and
the epsilon-zeroing instantiated on the concrete creeping velocity
`(0.01, 0, 0.01)`. -/
theorem speed_clamped_witness :
    Real.sqrt ((stepPhysics ⟨20, 6.5⟩ FIXED_DT
        ⟨true, false, false, false, false, false, false, false, false⟩
        ⟨⟨0, 0, 0⟩, ⟨3, 0, 4⟩, 0, 0, true, false, none, 0⟩
        ⟨false, false, -1⟩).1.velocity.x ^ 2 +
      (stepPhysics ⟨20, 6.5⟩ FIXED_DT
        ⟨true, false, false, false, false, false, false, false, false⟩
        ⟨⟨0, 0, 0⟩, ⟨3, 0, 4⟩, 0, 0, true, false, none, 0⟩
        ⟨false, false, -1⟩).1.velocity.z ^ 2) ≤ PHYSICS.MAX_SPEED ∧
    (speedClamp ⟨⟨0, 0, 0⟩, ⟨0.01, 0, 0.01⟩, 0, 0, true, false, none, 0⟩).velocity =
      Vec3.zero :=
  ⟨speed_clamped.1 ⟨20, 6.5⟩ FIXED_DT _ _ _,
    speed_clamped.2 _ (by norm_num [Vec3.lengthSq])⟩

/-- Every ramp in the registry has positive footprint extents and nonnegative
maximum height. -/
theorem rampData_fields : ∀ r ∈ RAMP_DATA,
    0 < r.size.x ∧ 0 < r.size.z ∧ 0 ≤ r.maxHeight := by
  intro r hr
  fin_cases hr <;> norm_num

/-- Inside a ramp's footprint the normalized penetration progress lies in
`[0, 1]`. -/
theorem rampProgress_mem (r : RampData) (px pz : ℝ) (hx : 0 < r.size.x)
    (hz : 0 < r.size.z) (hin : inRampFootprint r px pz) :
    0 ≤ rampProgress r px pz ∧ rampProgress r px pz ≤ 1 := by
  obtain ⟨h1, h2, h3, h4⟩ := hin
  cases hdir : r.direction with
  | north =>
      simp only [rampProgress, hdir]
      exact ⟨div_nonneg (by linarith) hz.le, by rw [div_le_one hz]; linarith⟩
  | south =>
      simp only [rampProgress, hdir]
      have hq0 : 0 ≤ (pz - (r.position.z - r.size.z / 2)) / r.size.z :=
        div_nonneg (by linarith) hz.le
      have hq1 : (pz - (r.position.z - r.size.z / 2)) / r.size.z ≤ 1 := by
        rw [div_le_one hz]; linarith
      constructor <;> linarith
  | east =>
      simp only [rampProgress, hdir]
      exact ⟨div_nonneg (by linarith) hx.le, by rw [div_le_one hx]; linarith⟩
  | west =>
      simp only [rampProgress, hdir]
      have hq0 : 0 ≤ (px - (r.position.x - r.size.x / 2)) / r.size.x :=
        div_nonneg (by linarith) hx.le
      have hq1 : (px - (r.position.x - r.size.x / 2)) / r.size.x ≤ 1 := by
        rw [div_le_one hx]; linarith
      constructor <;> linarith

/-- C8: for every registry ramp whose footprint contains the actor's
horizontal position, the quarter-sine surface height lies in
`[0, maxHeight]` and equals `maxHeight` at full penetration progress `1`;
and whenever the actor is at or below that height within the `0.05` tolerance
and not moving upward faster than `0.2`, the ramp iteration snaps `position.y`
to the surface height, zeroes the vertical velocity, sets the grounded flag
and reports ramp contact (the `onRamp` flag that `stepPhysics` stores into
`rampContactRef` for the next tick's jump-boost decision). -/
theorem ramp_quarter_sine_snap (r : RampData) (hr : r ∈ RAMP_DATA)
    (s : SkaterState) (b : Bool)
    (hin : inRampFootprint r s.position.x s.position.z) :
    (0 ≤ rampHeight r s.position.x s.position.z ∧
      rampHeight r s.position.x s.position.z ≤ r.maxHeight) ∧
    (rampProgress r s.position.x s.position.z = 1 →
      rampHeight r s.position.x s.position.z = r.maxHeight) ∧
    (s.position.y ≤ rampHeight r s.position.x s.position.z + 0.05 →
      s.verticalVelocity ≤ 0.2 →
      (rampStep (s, b) r).1.position.y = rampHeight r s.position.x s.position.z ∧
      (rampStep (s, b) r).1.verticalVelocity = 0 ∧
      (rampStep (s, b) r).1.isGrounded = true ∧
      (rampStep (s, b) r).2 = true) := by
  obtain ⟨hx, hz, hmh⟩ := rampData_fields r hr
  obtain ⟨hp0, hp1⟩ := rampProgress_mem r _ _ hx hz hin
  have hsin0 : 0 ≤ Real.sin
      (rampProgress r s.position.x s.position.z * Real.pi / 2) := by
    apply Real.sin_nonneg_of_nonneg_of_le_pi
    · positivity
    · nlinarith [Real.pi_pos]
  have hsin1 : Real.sin
      (rampProgress r s.position.x s.position.z * Real.pi / 2) ≤ 1 :=
    Real.sin_le_one _
  refine ⟨⟨mul_nonneg hsin0 hmh, ?_⟩, ?_, ?_⟩
  · unfold rampHeight
    nlinarith
  · intro hp
    unfold rampHeight
    rw [hp]
    norm_num [Real.sin_pi_div_two]
  · intro hy hvv
    simp only [rampStep, if_pos hin]
    rw [if_pos ⟨hy, hvv⟩]
    exact ⟨rfl, rfl, rfl, rfl⟩

/-- Witness for C8: the first registry half-pipe (`hp1`, a north-facing ramp of
maximum height 2), approached at full penetration progress `1` while slowly
descending, snaps the actor to height `2`, zeroes vertical velocity, grounds
the actor and reports ramp contact. -/
theorem ramp_quarter_sine_snap_witness :
    rampProgress ⟨"hp1", ⟨8, 0, -14⟩, ⟨4, 2, 2⟩, 2, .north, 60⟩ 8 (-13) = 1 ∧
    rampHeight ⟨"hp1", ⟨8, 0, -14⟩, ⟨4, 2, 2⟩, 2, .north, 60⟩ 8 (-13) = 2 ∧
    (rampStep (⟨⟨8, 1.9, -13⟩, ⟨0, 0, 0⟩, 0, 0.1, false, false, none, 0.5⟩, false)
        ⟨"hp1", ⟨8, 0, -14⟩, ⟨4, 2, 2⟩, 2, .north, 60⟩).1.position.y =
      rampHeight ⟨"hp1", ⟨8, 0, -14⟩, ⟨4, 2, 2⟩, 2, .north, 60⟩ 8 (-13) ∧
    (rampStep (⟨⟨8, 1.9, -13⟩, ⟨0, 0, 0⟩, 0, 0.1, false, false, none, 0.5⟩, false)
        ⟨"hp1", ⟨8, 0, -14⟩, ⟨4, 2, 2⟩, 2, .north, 60⟩).1.verticalVelocity = 0 ∧
    (rampStep (⟨⟨8, 1.9, -13⟩, ⟨0, 0, 0⟩, 0, 0.1, false, false, none, 0.5⟩, false)
        ⟨"hp1", ⟨8, 0, -14⟩, ⟨4, 2, 2⟩, 2, .north, 60⟩).1.isGrounded = true ∧
    (rampStep (⟨⟨8, 1.9, -13⟩, ⟨0, 0, 0⟩, 0, 0.1, false, false, none, 0.5⟩, false)
        ⟨"hp1", ⟨8, 0, -14⟩, ⟨4, 2, 2⟩, 2, .north, 60⟩).2 = true := by
  have h := ramp_quarter_sine_snap ⟨"hp1", ⟨8, 0, -14⟩, ⟨4, 2, 2⟩, 2, .north, 60⟩
    (by simp [RAMP_DATA])
    ⟨⟨8, 1.9, -13⟩, ⟨0, 0, 0⟩, 0, 0.1, false, false, none, 0.5⟩ false
    (by norm_num [inRampFootprint])
  have hprog : rampProgress ⟨"hp1", ⟨8, 0, -14⟩, ⟨4, 2, 2⟩, 2, .north, 60⟩
      8 (-13) = 1 := by
    norm_num [rampProgress]
  have hh : rampHeight ⟨"hp1", ⟨8, 0, -14⟩, ⟨4, 2, 2⟩, 2, .north, 60⟩
      8 (-13) = 2 := h.2.1 hprog
  have h3 := h.2.2 (by rw [hh]; norm_num) (by norm_num)
  exact ⟨hprog, hh, h3.1, h3.2.1, h3.2.2.1, h3.2.2.2⟩

theorem groundedControls_velocity_y (c : MissingConsts) (dt : ℝ)
    (inp : InputState) (e : Env) (s : SkaterState) (h : s.velocity.y = 0) :
    (groundedControls c dt inp e s).velocity.y = 0 := by
  simp only [groundedControls]
  split_ifs <;> simp [Vec3.smul, Vec3.addScaled, Vec3.add, h]

theorem airControls_velocity (dt : ℝ) (inp : InputState) (e : Env)
    (s : SkaterState) : (airControls dt inp e s).1.velocity = s.velocity := by
  simp only [airControls]; split_ifs <;> rfl

theorem applyControls_velocity_y (c : MissingConsts) (dt : ℝ) (inp : InputState)
    (e : Env) (s1 : SkaterState) (h : s1.velocity.y = 0) :
    (applyControls c dt inp e s1).1.velocity.y = 0 := by
  unfold applyControls
  by_cases hg : s1.isGrounded = true
  · rw [if_pos hg]
    exact groundedControls_velocity_y c dt inp e s1 h
  · rw [if_neg hg, airControls_velocity]
    exact h

theorem speedClamp_velocity_y (s : SkaterState) (h : s.velocity.y = 0) :
    (speedClamp s).velocity.y = 0 := by
  simp only [speedClamp]
  split_ifs <;> simp [Vec3.setLength, Vec3.smul, Vec3.zero, h]

/-- C9: the per-tick step revokes the grounded flag only through the
jump-launch branch.  First conjunct: a tick started grounded either ends
grounded or saw a rising jump edge.  Second conjunct: with no rising jump edge,
a grounded actor — even one standing on an elevated surface whose support the
integrated position has left (the out-of-footprint hypotheses) — ends the tick
still grounded, with zero vertical velocity, at its unchanged height: no tick
un-grounds the actor because support was removed.  (The `velocity.y = 0`
hypothesis is an invariant of every reachable state: the initial velocity is
zero and no stage writes a nonzero y-component.) -/
theorem grounded_persists_without_jump (c : MissingConsts) (dt : ℝ)
    (inp : InputState) (s : SkaterState) (e : Env) (hc : specConsts c)
    (hg : s.isGrounded = true) :
    ((stepPhysics c dt inp s e).1.isGrounded = true ∨
      (inp.jump = true ∧ e.prevJump = false)) ∧
    ((inp.jump && !e.prevJump) = false → s.velocity.y = 0 →
      (∀ r ∈ RAMP_DATA,
        ¬ inRampFootprint r (preCollide c dt inp e s).position.x
          (preCollide c dt inp e s).position.z) →
      (∀ ob ∈ OBSTACLE_DATA,
        ¬ inObstaclePad ob (preCollide c dt inp e s).position.x
          (preCollide c dt inp e s).position.z) →
      (stepPhysics c dt inp s e).1.isGrounded = true ∧
      (stepPhysics c dt inp s e).1.verticalVelocity = 0 ∧
      (stepPhysics c dt inp s e).1.position.y = s.position.y) := by
  have hgc : (gravityClamp c dt s).isGrounded = true := hg
  constructor
  · by_cases hjp : (inp.jump && !e.prevJump) = true
    · right
      simpa [Bool.and_eq_true, Bool.not_eq_true'] using hjp
    · left
      have h1 : (preCollide c dt inp e s).isGrounded = true := by
        show (applyControls c dt inp e (gravityClamp c dt s)).1.isGrounded = true
        simp [applyControls, hgc, groundedControls, hjp]
      have h5 := foldlInvariant (fun p : SkaterState × Bool => p.1.isGrounded = true)
        rampStep RAMP_DATA (preCollide c dt inp e s, false) h1
        (fun a b _ ha => rampStep_grounded a b ha)
      have h6 := foldlInvariant (fun p : SkaterState × Bool => p.1.isGrounded = true)
        obstacleStep OBSTACLE_DATA
        ((RAMP_DATA.foldl rampStep (preCollide c dt inp e s, false)).1,
          (RAMP_DATA.foldl rampStep (preCollide c dt inp e s, false)).2) h5
        (fun a b _ ha => obstacleStep_grounded a b ha)
      show (landingReset s.isGrounded (floorSnap _ _)).isGrounded = true
      rw [landingReset_isGrounded]
      exact floorSnap_grounded _ _ h6
  · intro hjp hvy hR hO
    have hjp' : (inp.jump && !e.prevJump) = false := hjp
    have h1 : (preCollide c dt inp e s).isGrounded = true := by
      show (applyControls c dt inp e (gravityClamp c dt s)).1.isGrounded = true
      simp [applyControls, hgc, groundedControls, hjp']
    have h1v : (preCollide c dt inp e s).verticalVelocity = 0 :=
      controls_gvv c dt inp e s hc h1
    have hXpos : (applyControls c dt inp e (gravityClamp c dt s)).1.position =
        s.position := by
      simp [applyControls, hgc, groundedControls, gravityClamp, hg]
    have hvy2 : (speedClamp
        (applyControls c dt inp e (gravityClamp c dt s)).1).velocity.y = 0 :=
      speedClamp_velocity_y _ (applyControls_velocity_y c dt inp e _ hvy)
    have hy' : (preCollide c dt inp e s).position.y = s.position.y := by
      show (integrate dt (speedClamp
        (applyControls c dt inp e (gravityClamp c dt s)).1)).position.y =
        s.position.y
      simp only [integrate, Vec3.addScaled, Vec3.add, Vec3.smul]
      rw [show (speedClamp (applyControls c dt inp e
            (gravityClamp c dt s)).1).position =
          (applyControls c dt inp e (gravityClamp c dt s)).1.position from rfl,
        hXpos]
      rw [show (speedClamp (applyControls c dt inp e
            (gravityClamp c dt s)).1).verticalVelocity =
          (applyControls c dt inp e (gravityClamp c dt s)).1.verticalVelocity
          from rfl]
      rw [show (applyControls c dt inp e
            (gravityClamp c dt s)).1.verticalVelocity =
          (preCollide c dt inp e s).verticalVelocity from rfl, h1v, hvy2]
      ring
    have hfixr : RAMP_DATA.foldl rampStep (preCollide c dt inp e s, false) =
        (preCollide c dt inp e s, false) :=
      foldlInvariant (fun p => p = (preCollide c dt inp e s, false))
        rampStep RAMP_DATA _ rfl
        (fun a b hb ha => by
          rw [ha]; exact rampStep_of_notin _ b (hR b hb))
    have hfixo : OBSTACLE_DATA.foldl obstacleStep
        ((RAMP_DATA.foldl rampStep (preCollide c dt inp e s, false)).1,
          (RAMP_DATA.foldl rampStep (preCollide c dt inp e s, false)).2) =
        (preCollide c dt inp e s, false) := by
      rw [hfixr]
      exact foldlInvariant (fun p => p = (preCollide c dt inp e s, false))
        obstacleStep OBSTACLE_DATA _ rfl
        (fun a b hb ha => by
          rw [ha]; exact obstacleStep_of_notin _ b (hO b hb))
    have hfloor : floorSnap false (preCollide c dt inp e s) =
        preCollide c dt inp e s :=
      floorSnap_of_nonneg _ _ (le_of_eq h1v.symm)
    have hstep : (stepPhysics c dt inp s e).1 = airborneTick dt
        (boundClamp (landingReset s.isGrounded (preCollide c dt inp e s))) := by
      show airborneTick dt (boundClamp (landingReset s.isGrounded
        (floorSnap (OBSTACLE_DATA.foldl obstacleStep
          ((RAMP_DATA.foldl rampStep (preCollide c dt inp e s, false)).1,
            (RAMP_DATA.foldl rampStep (preCollide c dt inp e s, false)).2)).2
          (OBSTACLE_DATA.foldl obstacleStep
            ((RAMP_DATA.foldl rampStep (preCollide c dt inp e s, false)).1,
              (RAMP_DATA.foldl rampStep
                (preCollide c dt inp e s, false)).2)).1))) = _
      rw [hfixo]
      rw [show (floorSnap ((preCollide c dt inp e s, false) : SkaterState × Bool).2
          ((preCollide c dt inp e s, false) : SkaterState × Bool).1) =
          floorSnap false (preCollide c dt inp e s) from rfl, hfloor]
    refine ⟨?_, ?_, ?_⟩
    · rw [hstep]
      show (landingReset s.isGrounded (preCollide c dt inp e s)).isGrounded = true
      rw [landingReset_isGrounded]
      exact h1
    · rw [hstep]
      show (landingReset s.isGrounded
        (preCollide c dt inp e s)).verticalVelocity = 0
      rw [landingReset_verticalVelocity]
      exact h1v
    · rw [hstep]
      show (landingReset s.isGrounded (preCollide c dt inp e s)).position.y =
        s.position.y
      rw [landingReset_position]
      exact hy'

/-- Witness for C9: a grounded actor resting at height `0.6` (an obstacle-top
height) over empty floor at `(-18, 18)`, with no jump pressed, stays grounded
at the same height with zero vertical velocity after a tick. -/
theorem grounded_persists_without_jump_witness :
    ((stepPhysics ⟨20, 6.5⟩ FIXED_DT
        ⟨false, false, false, false, false, false, false, false, false⟩
        ⟨⟨-18, 0.6, 18⟩, ⟨0, 0, 0⟩, 0, 0, true, false, none, 0⟩
        ⟨false, false, -1⟩).1.isGrounded = true ∨
      ((false : Bool) = true ∧ (false : Bool) = false)) ∧
    ((stepPhysics ⟨20, 6.5⟩ FIXED_DT
        ⟨false, false, false, false, false, false, false, false, false⟩
        ⟨⟨-18, 0.6, 18⟩, ⟨0, 0, 0⟩, 0, 0, true, false, none, 0⟩
        ⟨false, false, -1⟩).1.isGrounded = true ∧
      (stepPhysics ⟨20, 6.5⟩ FIXED_DT
        ⟨false, false, false, false, false, false, false, false, false⟩
        ⟨⟨-18, 0.6, 18⟩, ⟨0, 0, 0⟩, 0, 0, true, false, none, 0⟩
        ⟨false, false, -1⟩).1.verticalVelocity = 0 ∧
      (stepPhysics ⟨20, 6.5⟩ FIXED_DT
        ⟨false, false, false, false, false, false, false, false, false⟩
        ⟨⟨-18, 0.6, 18⟩, ⟨0, 0, 0⟩, 0, 0, true, false, none, 0⟩
        ⟨false, false, -1⟩).1.position.y = 0.6) := by
  have h := grounded_persists_without_jump ⟨20, 6.5⟩ FIXED_DT
    ⟨false, false, false, false, false, false, false, false, false⟩
    ⟨⟨-18, 0.6, 18⟩, ⟨0, 0, 0⟩, 0, 0, true, false, none, 0⟩
    ⟨false, false, -1⟩
    (by constructor <;> norm_num [PHYSICS.JUMP_FORCE]) rfl
  have hpre : (preCollide ⟨20, 6.5⟩ FIXED_DT
        ⟨false, false, false, false, false, false, false, false, false⟩
        ⟨false, false, -1⟩
        ⟨⟨-18, 0.6, 18⟩, ⟨0, 0, 0⟩, 0, 0, true, false, none, 0⟩).position.x =
        -18 ∧
      (preCollide ⟨20, 6.5⟩ FIXED_DT
        ⟨false, false, false, false, false, false, false, false, false⟩
        ⟨false, false, -1⟩
        ⟨⟨-18, 0.6, 18⟩, ⟨0, 0, 0⟩, 0, 0, true, false, none, 0⟩).position.z =
        18 := by
    constructor <;>
      norm_num [preCollide, integrate, speedClamp, applyControls,
        groundedControls, airControls, gravityClamp, clampR, Vec3.lengthSq,
        Vec3.length, Vec3.smul, Vec3.add, Vec3.addScaled, Vec3.zero,
        Vec3.setLength, FIXED_DT, min_def, max_def, Real.sqrt_zero,
        PHYSICS.GRAVITY, PHYSICS.PUSH_ACCEL, PHYSICS.MAX_SPEED,
        PHYSICS.TURN_SPEED, PHYSICS.FRICTION, PHYSICS.BRAKE_FRICTION,
        PHYSICS.JUMP_FORCE, PHYSICS.AIR_CONTROL]
  refine ⟨h.1, h.2 rfl rfl ?_ ?_⟩ <;>
    · intro x hx
      rw [hpre.1, hpre.2]
      fin_cases hx <;> norm_num [inRampFootprint, inObstaclePad]

/-- Counterexample for C7 as stated.  Take the hub obstacle `o12` (a
`(1, 0.5, 1)` box at the origin, padded half-extent `0.8` on both axes) and an
actor inside its padded footprint at `(0.3, 0, 0.1)` below the top band,
moving at `(0.1, 0, 0.1)`.  The penetration depth along z
(`0.8 - |dz| = 0.7`) strictly exceeds the penetration depth along x
(`0.8 - |dx| = 0.5`), so the claim predicts a push-out along z with `velocity.z`
inverted and dampened; instead the code compares the raw center offsets
(`|dx| > |dz|`) and pushes along x, leaving the z position and z velocity
untouched. -/
theorem obstacle_push_axis_counterexample :
    (⟨"o12", ⟨0, 0, 0⟩, ⟨1, 0.5, 1⟩, true, "HUB"⟩ : ObstacleData) ∈
        OBSTACLE_DATA ∧
    inObstaclePad ⟨"o12", ⟨0, 0, 0⟩, ⟨1, 0.5, 1⟩, true, "HUB"⟩ 0.3 0.1 ∧
    (1 / 2 + 0.3) - |(0.3 : ℝ) - 0| < (1 / 2 + 0.3) - |(0.1 : ℝ) - 0| ∧
    (obstacleStep
        (⟨⟨0.3, 0, 0.1⟩, ⟨0.1, 0, 0.1⟩, 0, 0, true, false, none, 0⟩, false)
        ⟨"o12", ⟨0, 0, 0⟩, ⟨1, 0.5, 1⟩, true, "HUB"⟩).1.position.z = 0.1 ∧
    (obstacleStep
        (⟨⟨0.3, 0, 0.1⟩, ⟨0.1, 0, 0.1⟩, 0, 0, true, false, none, 0⟩, false)
        ⟨"o12", ⟨0, 0, 0⟩, ⟨1, 0.5, 1⟩, true, "HUB"⟩).1.velocity.z = 0.1 ∧
    (obstacleStep
        (⟨⟨0.3, 0, 0.1⟩, ⟨0.1, 0, 0.1⟩, 0, 0, true, false, none, 0⟩, false)
        ⟨"o12", ⟨0, 0, 0⟩, ⟨1, 0.5, 1⟩, true, "HUB"⟩).1.position.x = 0.8 ∧
    (obstacleStep
        (⟨⟨0.3, 0, 0.1⟩, ⟨0.1, 0, 0.1⟩, 0, 0, true, false, none, 0⟩, false)
        ⟨"o12", ⟨0, 0, 0⟩, ⟨1, 0.5, 1⟩, true, "HUB"⟩).1.velocity.x =
      0.1 * (-0.3) := by
  refine ⟨by simp [OBSTACLE_DATA], by norm_num [inObstaclePad], by
    norm_num [abs_of_pos], ?_, ?_, ?_, ?_⟩ <;>
    norm_num [obstacleStep, inObstaclePad, abs_of_pos, Real.sign_of_pos]

/-- C7, amended to what the code does: for an actor inside an obstacle's
padded footprint, below the top band and below the top, the side resolution
pushes the actor out along whichever horizontal axis has the larger center
offset (`|dx| > |dz|` picks x, otherwise z) — for equal paddings this is the
axis of smaller, not greater, penetration — placing the actor exactly on the
boundary of the padded footprint along that axis, and inverts-and-dampens that
axis's velocity component by the fixed restitution factor `0.3 < 1`, leaving
the other axis's position and velocity unchanged. -/
theorem obstacle_side_bounce (ob : ObstacleData) (s : SkaterState) (b : Bool)
    (hsx : 0 ≤ ob.size.x) (hsz : 0 ≤ ob.size.z)
    (hin : inObstaclePad ob s.position.x s.position.z)
    (hband : ¬(s.position.y ≤ ob.size.y + 0.1 ∧ s.position.y ≥ ob.size.y - 0.2))
    (hbelow : s.position.y < ob.size.y) :
    (0.3 : ℝ) < 1 ∧
    (|s.position.x - ob.position.x| > |s.position.z - ob.position.z| →
      (obstacleStep (s, b) ob).1.position.x =
        ob.position.x +
          Real.sign (s.position.x - ob.position.x) * (ob.size.x / 2 + 0.3) ∧
      (s.position.x - ob.position.x ≠ 0 →
        |(obstacleStep (s, b) ob).1.position.x - ob.position.x| =
          ob.size.x / 2 + 0.3) ∧
      (obstacleStep (s, b) ob).1.velocity.x = s.velocity.x * (-0.3) ∧
      |(obstacleStep (s, b) ob).1.velocity.x| = 0.3 * |s.velocity.x| ∧
      (obstacleStep (s, b) ob).1.position.z = s.position.z ∧
      (obstacleStep (s, b) ob).1.velocity.z = s.velocity.z) ∧
    (¬(|s.position.x - ob.position.x| > |s.position.z - ob.position.z|) →
      (obstacleStep (s, b) ob).1.position.z =
        ob.position.z +
          Real.sign (s.position.z - ob.position.z) * (ob.size.z / 2 + 0.3) ∧
      (s.position.z - ob.position.z ≠ 0 →
        |(obstacleStep (s, b) ob).1.position.z - ob.position.z| =
          ob.size.z / 2 + 0.3) ∧
      (obstacleStep (s, b) ob).1.velocity.z = s.velocity.z * (-0.3) ∧
      |(obstacleStep (s, b) ob).1.velocity.z| = 0.3 * |s.velocity.z| ∧
      (obstacleStep (s, b) ob).1.position.x = s.position.x ∧
      (obstacleStep (s, b) ob).1.velocity.x = s.velocity.x) := by
  refine ⟨by norm_num, fun hax => ?_, fun hax => ?_⟩
  · simp only [obstacleStep, if_pos hin, if_neg hband, if_pos hbelow,
      if_pos hax]
    refine ⟨trivial, fun hdx => ?_, trivial, ?_, trivial, trivial⟩
    · have hb : (0 : ℝ) ≤ ob.size.x / 2 + 0.3 := by linarith
      rcases lt_or_gt_of_ne hdx with hneg | hpos
      · rw [show ob.position.x + Real.sign (s.position.x - ob.position.x) *
            (ob.size.x / 2 + 0.3) - ob.position.x =
            Real.sign (s.position.x - ob.position.x) * (ob.size.x / 2 + 0.3)
            by ring, Real.sign_of_neg hneg, abs_mul]
        simp [abs_of_nonneg hb]
      · rw [show ob.position.x + Real.sign (s.position.x - ob.position.x) *
            (ob.size.x / 2 + 0.3) - ob.position.x =
            Real.sign (s.position.x - ob.position.x) * (ob.size.x / 2 + 0.3)
            by ring, Real.sign_of_pos hpos, abs_mul]
        simp [abs_of_nonneg hb]
    · rw [abs_mul, show |(-0.3 : ℝ)| = (0.3 : ℝ) from by
        rw [abs_neg]; exact abs_of_pos (by norm_num)]
      ring
  · simp only [obstacleStep, if_pos hin, if_neg hband, if_pos hbelow,
      if_neg hax]
    refine ⟨trivial, fun hdz => ?_, trivial, ?_, trivial, trivial⟩
    · have hb : (0 : ℝ) ≤ ob.size.z / 2 + 0.3 := by linarith
      rcases lt_or_gt_of_ne hdz with hneg | hpos
      · rw [show ob.position.z + Real.sign (s.position.z - ob.position.z) *
            (ob.size.z / 2 + 0.3) - ob.position.z =
            Real.sign (s.position.z - ob.position.z) * (ob.size.z / 2 + 0.3)
            by ring, Real.sign_of_neg hneg, abs_mul]
        simp [abs_of_nonneg hb]
      · rw [show ob.position.z + Real.sign (s.position.z - ob.position.z) *
            (ob.size.z / 2 + 0.3) - ob.position.z =
            Real.sign (s.position.z - ob.position.z) * (ob.size.z / 2 + 0.3)
            by ring, Real.sign_of_pos hpos, abs_mul]
        simp [abs_of_nonneg hb]
    · rw [abs_mul, show |(-0.3 : ℝ)| = (0.3 : ℝ) from by
        rw [abs_neg]; exact abs_of_pos (by norm_num)]
      ring

/-- Witness for C7 (amended), at the spec's concrete scenario: an actor moving
at `(2, 0, 0)` at `(4.4, 0, 5)`, inside the padded footprint of a `(1, 1, 1)`
obstacle centered at `(5, 0, 5)` and below its top band, is pushed along x to
the boundary of the padded footprint (`|x - 5| = 0.8`, i.e. `x = 4.2`) and its
x velocity becomes `2 * (-0.3) = -0.6` (sign flipped, magnitude scaled by the
restitution factor `0.3`), the z position and velocity unchanged. -/
theorem obstacle_side_bounce_witness :
    (obstacleStep
        (⟨⟨4.4, 0, 5⟩, ⟨2, 0, 0⟩, 0, 0, true, false, none, 0⟩, false)
        ⟨"spec", ⟨5, 0, 5⟩, ⟨1, 1, 1⟩, true, "STREET"⟩).1.position.x =
      5 + Real.sign ((4.4 : ℝ) - 5) * (1 / 2 + 0.3) ∧
    |(obstacleStep
        (⟨⟨4.4, 0, 5⟩, ⟨2, 0, 0⟩, 0, 0, true, false, none, 0⟩, false)
        ⟨"spec", ⟨5, 0, 5⟩, ⟨1, 1, 1⟩, true, "STREET"⟩).1.position.x - 5| =
      1 / 2 + 0.3 ∧
    (obstacleStep
        (⟨⟨4.4, 0, 5⟩, ⟨2, 0, 0⟩, 0, 0, true, false, none, 0⟩, false)
        ⟨"spec", ⟨5, 0, 5⟩, ⟨1, 1, 1⟩, true, "STREET"⟩).1.velocity.x =
      2 * (-0.3) ∧
    |(obstacleStep
        (⟨⟨4.4, 0, 5⟩, ⟨2, 0, 0⟩, 0, 0, true, false, none, 0⟩, false)
        ⟨"spec", ⟨5, 0, 5⟩, ⟨1, 1, 1⟩, true, "STREET"⟩).1.velocity.x| =
      0.3 * |(2 : ℝ)| ∧
    (obstacleStep
        (⟨⟨4.4, 0, 5⟩, ⟨2, 0, 0⟩, 0, 0, true, false, none, 0⟩, false)
        ⟨"spec", ⟨5, 0, 5⟩, ⟨1, 1, 1⟩, true, "STREET"⟩).1.position.z = 5 ∧
    (obstacleStep
        (⟨⟨4.4, 0, 5⟩, ⟨2, 0, 0⟩, 0, 0, true, false, none, 0⟩, false)
        ⟨"spec", ⟨5, 0, 5⟩, ⟨1, 1, 1⟩, true, "STREET"⟩).1.velocity.z = 0 := by
  have h := obstacle_side_bounce
    ⟨"spec", ⟨5, 0, 5⟩, ⟨1, 1, 1⟩, true, "STREET"⟩
    ⟨⟨4.4, 0, 5⟩, ⟨2, 0, 0⟩, 0, 0, true, false, none, 0⟩ false
    (by norm_num) (by norm_num) (by norm_num [inObstaclePad])
    (by norm_num) (by norm_num)
  have hax : |(4.4 : ℝ) - 5| > |(5 : ℝ) - 5| := by
    rw [show (4.4 : ℝ) - 5 = -0.6 by norm_num]
    norm_num
  have h2 := h.2.1 hax
  exact ⟨h2.1, h2.2.1 (by norm_num), h2.2.2.1, h2.2.2.2.1, h2.2.2.2.2.1,
    h2.2.2.2.2.2⟩

/-- C10: collecting a star is idempotent.  First conjunct: invoking
`handleStarCollected` twice with the same star id equals invoking it once (so
no double award of points and no duplicate id in the persisted list).  Second
conjunct: the handler is a no-op whenever the id is already in the
session-collected list or the persisted collected list. -/
theorem star_collection_idempotent :
    (∀ (b : StarBook) (sid pts : ℕ),
        handleStarCollected (handleStarCollected b sid pts) sid pts =
          handleStarCollected b sid pts) ∧
    (∀ (b : StarBook) (sid pts : ℕ),
        sid ∈ b.sessionStars ∨ sid ∈ b.collectedStars →
          handleStarCollected b sid pts = b) := by
  constructor
  · intro b sid pts
    by_cases h : sid ∈ b.sessionStars ∨ sid ∈ b.collectedStars
    · simp [handleStarCollected, h]
    · simp [handleStarCollected, h]
  · intro b sid pts h
    simp [handleStarCollected, h]

/-- Witness for C10: a second collection of star id 7 — both starting from an
empty book and starting from a book whose persisted list already holds 7 — is
a no-op. -/
theorem star_collection_idempotent_witness :
    handleStarCollected (handleStarCollected ⟨[], [], 0⟩ 7 25) 7 25 =
        handleStarCollected ⟨[], [], 0⟩ 7 25 ∧
      handleStarCollected ⟨[], [7], 100⟩ 7 25 = ⟨[], [7], 100⟩ :=
  ⟨star_collection_idempotent.1 ⟨[], [], 0⟩ 7 25,
    star_collection_idempotent.2 ⟨[], [7], 100⟩ 7 25 (Or.inr (by simp))⟩

/-- C2: after the gravity-and-clamp step at the start of a tick, the vertical
velocity lies in `[-MAX_VERTICAL_VEL, MAX_VERTICAL_VEL]` (the reals of the
model carry no infinities or NaN, so the value is in particular a finite
number). -/
theorem vertical_velocity_clamped (c : MissingConsts) (dt : ℝ) (s : SkaterState)
    (hc : specConsts c) :
    -c.maxVerticalVel ≤ (gravityClamp c dt s).verticalVelocity ∧
      (gravityClamp c dt s).verticalVelocity ≤ c.maxVerticalVel := by
  have hm : (0 : ℝ) ≤ c.maxVerticalVel := le_of_lt hc.1
  simp only [gravityClamp]
  exact ⟨le_clampR _ _ _, clampR_le _ _ _ (by linarith)⟩

/-- Witness for C2, at the modelled constants `⟨20, 6.5⟩`, an airborne state
falling fast, and the fixed time step. -/
theorem vertical_velocity_clamped_witness :
    -(20 : ℝ) ≤ (gravityClamp ⟨20, 6.5⟩ FIXED_DT
        ⟨⟨0, 3, 0⟩, ⟨0, 0, 0⟩, 0, -50, false, false, none, 1⟩).verticalVelocity ∧
      (gravityClamp ⟨20, 6.5⟩ FIXED_DT
        ⟨⟨0, 3, 0⟩, ⟨0, 0, 0⟩, 0, -50, false, false, none, 1⟩).verticalVelocity ≤ 20 :=
  vertical_velocity_clamped ⟨20, 6.5⟩ FIXED_DT _
    (by constructor <;> norm_num [PHYSICS.JUMP_FORCE])

/-- C1: on a tick where the actor is grounded and the jump input shows a rising
edge, the input stage sets the vertical velocity to the ramp-boosted launch
constant when the previous tick ended in ramp contact and to the flat-ground
`JUMP_FORCE` otherwise (and leaves the grounded flag false); the ramp-boosted
constant is a well-defined (real) number distinct from and greater than
`JUMP_FORCE`. -/
theorem ramp_boost_launch (c : MissingConsts) (dt : ℝ) (inp : InputState)
    (e : Env) (s : SkaterState) (hc : specConsts c) (hg : s.isGrounded = true)
    (hj : inp.jump = true) (hp : e.prevJump = false) :
    (applyControls c dt inp e s).1.verticalVelocity =
        (if e.rampContact then c.rampLaunch else PHYSICS.JUMP_FORCE) ∧
      (applyControls c dt inp e s).1.isGrounded = false ∧
      PHYSICS.JUMP_FORCE < c.rampLaunch ∧ c.rampLaunch ≠ PHYSICS.JUMP_FORCE := by
  refine ⟨?_, ?_, hc.2, ne_of_gt hc.2⟩ <;>
    simp [applyControls, groundedControls, hg, hj, hp]

/-- Witness for C1: at the modelled constants `⟨20, 6.5⟩` and a grounded state
whose previous tick ended in ramp contact, a fresh jump press launches with the
ramp-boosted constant. -/
theorem ramp_boost_launch_witness :
    (applyControls ⟨20, 6.5⟩ FIXED_DT
          ⟨false, false, false, false, true, false, false, false, false⟩
          ⟨false, true, -1⟩
          ⟨⟨8, 2, -13⟩, ⟨0, 0, 0.1⟩, 0, 0, true, false, none, 0⟩).1.verticalVelocity =
        (if (true : Bool) then (6.5 : ℝ) else PHYSICS.JUMP_FORCE) ∧
      (applyControls ⟨20, 6.5⟩ FIXED_DT
          ⟨false, false, false, false, true, false, false, false, false⟩
          ⟨false, true, -1⟩
          ⟨⟨8, 2, -13⟩, ⟨0, 0, 0.1⟩, 0, 0, true, false, none, 0⟩).1.isGrounded = false ∧
      PHYSICS.JUMP_FORCE < (6.5 : ℝ) ∧ (6.5 : ℝ) ≠ PHYSICS.JUMP_FORCE :=
  ramp_boost_launch ⟨20, 6.5⟩ FIXED_DT _ _ _
    (by constructor <;> norm_num [PHYSICS.JUMP_FORCE]) rfl rfl rfl

/-- C4: at the end of every tick — for every time step, input snapshot,
starting state and ref environment — the actor's horizontal position satisfies
`|x| ≤ boundSize` and `|z| ≤ boundSize`.  (This covers every input sequence,
in particular one pushing outward for 10 simulated seconds, since each of its
ticks ends with the same clamp.) -/
theorem position_within_bounds (c : MissingConsts) (dt : ℝ) (inp : InputState)
    (s : SkaterState) (e : Env) :
    |(stepPhysics c dt inp s e).1.position.x| ≤ boundSize ∧
      |(stepPhysics c dt inp s e).1.position.z| ≤ boundSize := by
  have hb : (0 : ℝ) ≤ boundSize := by norm_num [boundSize]
  constructor <;>
    · simp only [stepPhysics, boundClamp]
      exact abs_clampR_le _ _ hb

end

end EwcArcade
